import Mathlib

/- Verification development for the stempeg repository (stem audio
multiplexing and demultiplexing on top of an external ffmpeg process).

The Python sources `stempeg/read.py` and `stempeg/write.py` are shallowly
embedded below.  External collaborators (the ffmpeg decode and encode
processes, the filesystem) are modelled as explicit parameters:

* a decoder environment maps the keyword arguments of one ffmpeg decode
  invocation to the raw little-endian float32 buffer that the process
  would emit (`DecodeEnv`);
* the encode process of `write_audio` is modelled by a `ProcBehavior`
  record (whether the writes to its stdin pipe succeed, its exit code and
  its captured stderr text);
* filesystem side effects are collected in an explicit `Effect` trace.

numpy `float32` samples are modelled as rationals; the claims under
study do not depend on floating-point rounding.  numpy arrays appear in
two guises: fixed-rank arrays (`Arr2`, `Arr3`, `Arr4`) given by their
extents and an element function, and rank-flexible `NDArray` values
(a C-order flat element function plus a shape list), which is what
`np.squeeze` needs.  The fixed-rank transpose and reshape operations
below are the specialisations of the numpy operations actually invoked
by the source (`transpose(1, 0, 2)`, `reshape(d0, d1, -1, g)`,
`transpose(2, 0, 3, 1)`, trailing-axes merges), each with the standard
C-order semantics.

Python exceptions are embedded as the `PyErr` type.  Note that
`read.py` line 127 and `write.py` line 605 call `warnings.warning`,
an attribute that does not exist in the Python `warnings` module
(the function is called `warnings.warn`); executing those lines raises
`AttributeError`.  The embedding models those statements faithfully as
errors rather than as warnings. -/

namespace Stempeg

/-- Python exceptions raised by the embedded code. -/
inductive PyErr where
  | pyWarning (msg : String)
  | runtimeError (msg : String)
  | notImplementedError (msg : String)
  | attributeError (msg : String)
  | valueError (msg : String)
  | indexError (msg : String)
  deriving DecidableEq

/-- Spec taxonomy name for the shape failure of `write_stems`
(`RuntimeError` in the source, write.py line 619). -/
def ShapeError : PyErr := .runtimeError "Input tensor dimension should be 3d"

/-- Spec taxonomy name for the stem-name count failure of
`build_channel_map` (`RuntimeError` in the source, write.py line 89). -/
def ConfigError : PyErr := .runtimeError "Please provide a list of stem names"

/-- Spec taxonomy name for the unsupported channel layout failure of
`build_channel_map` (`NotImplementedError` in the source, write.py line 158). -/
def UnsupportedLayoutError : PyErr :=
  .notImplementedError "Stempeg only support mono or stereo stems"

/-- Spec taxonomy name for the encode failure of `write_audio`
(`Warning` wrapping the captured stderr text, write.py line 531). -/
def TranscodeError (stderrTxt : String) : PyErr :=
  .pyWarning ("FFMPEG error: " ++ stderrTxt)

/-- The exception actually raised by read.py line 127: the source calls
`warnings.warning`, which does not exist (`warnings.warn` does), so the
length-mismatch branch raises `AttributeError`. -/
def lengthMismatchCrash : PyErr :=
  .attributeError "module warnings has no attribute warning"

/-- One entry of `Info.audio_streams`: the per-stream metadata that
`read_stems` consumes (read.py lines 194-198). -/
structure AudioStream where
  channels : ℕ
  sample_rate : ℕ
  deriving DecidableEq

/-- The probe result (read.py class `Info`), restricted to the audio
streams of an audio-only container, so that the container stream index
of audio stream `k` is `k` (this is the situation `Info.audio_stream_idx`
and `Info.channels` jointly assume). -/
structure InfoMeta where
  audio_streams : List AudioStream
  deriving DecidableEq

/-- The keyword arguments of one ffmpeg decode invocation assembled by
`read_stems` (read.py lines 107-113). -/
structure OutputKw where
  format : String
  ar : ℕ
  t : Option String
  ss : Option String
  map : String
  deriving DecidableEq

/-- Left-pad a decimal string with zero characters. -/
def padZeros (width : ℕ) (s : String) : String :=
  if s.length < width then String.mk (List.replicate (width - s.length) '0') ++ s else s

/-- Round to an integer, ties to even: the rounding `%f` formatting uses. -/
def roundHalfEven (q : ℚ) : ℤ :=
  let f : ℤ := ⌊q⌋
  if q - f > 1 / 2 then f + 1
  else if q - f < 1 / 2 then f
  else if f % 2 = 0 then f else f + 1

/-- Embedding of `_to_ffmpeg_time` (read.py lines 11-18):
`divmod(n, 60)` twice, then the format string `%d:%02d:%09.6f`. -/
def toFFmpegTime (n : ℚ) : String :=
  let m : ℤ := ⌊n / 60⌋
  let s : ℚ := n - 60 * m
  let h : ℤ := Int.fdiv m 60
  let m2 : ℤ := Int.fmod m 60
  let micro : ℤ := roundHalfEven (s * 1000000)
  toString h ++ ":" ++ padZeros 2 (toString m2) ++ ":" ++
    padZeros 2 (toString (Int.fdiv micro 1000000)) ++ "." ++
    padZeros 6 (toString (Int.fmod micro 1000000))

/-- Embedding of read.py lines 98-101: `if start:` (Python truthiness,
so a start of exactly 0 is not affected) `if start < 1e-4: start = None`. -/
def startFix : Option ℚ → Option ℚ
  | none => none
  | some s => if s ≠ 0 then (if s < 1 / 10000 then none else some s) else some s

/-- Rank-2 numpy array: extents and element function. -/
structure Arr2 (α : Type) where
  d0 : ℕ
  d1 : ℕ
  at2 : ℕ → ℕ → α

/-- Rank-3 numpy array: extents and element function. -/
structure Arr3 (α : Type) where
  d0 : ℕ
  d1 : ℕ
  d2 : ℕ
  at3 : ℕ → ℕ → ℕ → α

/-- Rank-4 numpy array: extents and element function. -/
structure Arr4 (α : Type) where
  d0 : ℕ
  d1 : ℕ
  d2 : ℕ
  d3 : ℕ
  at4 : ℕ → ℕ → ℕ → ℕ → α

/-- Rank-flexible numpy array: C-order flat element function plus shape. -/
structure NDArray (α : Type) where
  shape : List ℕ
  data : ℕ → α

/-- numpy `transpose(1, 0, 2)` on a rank-3 array. -/
def Arr3.transpose102 {α : Type} (a : Arr3 α) : Arr3 α :=
  ⟨a.d1, a.d0, a.d2, fun i j k => a.at3 j i k⟩

/-- numpy `reshape(d0, d1 * d2)`: merge the two trailing axes of a
rank-3 array (C order). -/
def Arr3.reshapeMergeLast {α : Type} (a : Arr3 α) : Arr2 α :=
  ⟨a.d0, a.d1 * a.d2, fun i m => a.at3 i (m / a.d2) (m % a.d2)⟩

/-- numpy `reshape(d0, d1, -1, g)`: split the trailing axis of a rank-3
array into `(d2 / g, g)` (C order; the source guards `g` divides `d2`). -/
def Arr3.reshapeSplitLast {α : Type} (a : Arr3 α) (g : ℕ) : Arr4 α :=
  ⟨a.d0, a.d1, a.d2 / g, g, fun i j p k => a.at3 i j (p * g + k)⟩

/-- numpy `transpose(2, 0, 3, 1)` on a rank-4 array. -/
def Arr4.transpose2031 {α : Type} (a : Arr4 α) : Arr4 α :=
  ⟨a.d2, a.d0, a.d3, a.d1, fun i0 i1 i2 i3 => a.at4 i1 i3 i0 i2⟩

/-- numpy `[..., 0]`: select index 0 of the trailing axis of a rank-4 array. -/
def Arr4.sel0 {α : Type} (a : Arr4 α) : Arr3 α :=
  ⟨a.d0, a.d1, a.d2, fun i j k => a.at4 i j k 0⟩

/-- View a rank-2 array as a rank-flexible array (C-order flattening). -/
def ndOfArr2 {α : Type} (a : Arr2 α) : NDArray α :=
  ⟨[a.d0, a.d1], fun n => a.at2 (n / a.d1) (n % a.d1)⟩

/-- View a rank-3 array as a rank-flexible array (C-order flattening). -/
def ndOfArr3 {α : Type} (a : Arr3 α) : NDArray α :=
  ⟨[a.d0, a.d1, a.d2],
    fun n => a.at3 (n / (a.d1 * a.d2)) (n / a.d2 % a.d1) (n % a.d2)⟩

/-- numpy `squeeze`: drop every axis of extent 1.  On a C-contiguous
array this leaves the flat element order unchanged. -/
def NDArray.squeeze {α : Type} (a : NDArray α) : NDArray α :=
  ⟨a.shape.filter (fun d => d ≠ 1), a.data⟩

/-- The external decode process: one ffmpeg invocation with the given
output keyword arguments emits this raw float32 sample buffer. -/
abbrev DecodeEnv := OutputKw → List ℚ

/-- The `stem_id` argument of `read_stems`: Python accepts an int or a
list of ints (read.py lines 88-95). -/
inductive StemId where
  | one (k : ℕ)
  | many (l : List ℕ)

/-- State threaded through the decode loop of `read_stems`
(read.py lines 103-123): the persistent `sample_rate` variable, the
decode invocations made so far, the decoded per-stream arrays, and a
pending exception. -/
structure LoopState where
  sr : Option ℕ
  calls : List OutputKw
  stems : List (Arr2 ℚ)
  err : Option PyErr

/-- One iteration of the decode loop of `read_stems` (read.py lines
103-123).  The metadata accessors raise `IndexError` for an out-of-range
stream id; `sample_rate` is set from the stream only when still `None`
and then persists across iterations; the decoded buffer is reinterpreted
as a `(samples, channels)` array (`np.frombuffer(...).reshape(-1, channels)`,
which raises `ValueError` when the buffer does not divide into whole
frames).  The `astype` cast is the identity here because samples are
modelled as rationals. -/
def decodeStep (env : DecodeEnv) (meta : InfoMeta) (startq duration : Option ℚ)
    (st : LoopState) (stem : ℕ) : LoopState :=
  match st.err with
  | some _ => st
  | none =>
    if stem < meta.audio_streams.length then
      let strm := meta.audio_streams.getD stem ⟨0, 0⟩
      let sr : ℕ := match st.sr with | none => strm.sample_rate | some r => r
      let kw : OutputKw :=
        { format := "f32le", ar := sr,
          t := duration.map toFFmpegTime,
          ss := startq.map toFFmpegTime,
          map := "0:" ++ toString stem }
      let buf := env kw
      if strm.channels = 0 ∨ buf.length % strm.channels ≠ 0 then
        { st with
          sr := some sr,
          calls := st.calls ++ [kw],
          err := some (.valueError "cannot reshape buffer") }
      else
        { sr := some sr, calls := st.calls ++ [kw],
          stems := st.stems ++
            [⟨buf.length / strm.channels, strm.channels,
              fun ti ci => buf.getD (ti * strm.channels + ci) 0⟩],
          err := none }
    else { st with err := some (.indexError "list index out of range") }

/-- Result of a `read_stems` call: the decode invocations it made, and
either an exception or the returned `(tensor, sample_rate)` pair. -/
structure ReadOut where
  calls : List OutputKw
  result : Except PyErr (NDArray ℚ × Option ℕ)

/-- Shape of the returned tensor (empty on an exception). -/
def ReadOut.outShape (r : ReadOut) : List ℕ :=
  match r.result with
  | .ok (a, _) => a.shape
  | .error _ => []

/-- Flat C-order element of the returned tensor (0 on an exception). -/
def ReadOut.outAt (r : ReadOut) (n : ℕ) : ℚ :=
  match r.result with
  | .ok (a, _) => a.data n
  | .error _ => 0

/-- The exception of a failed call, if any. -/
def ReadOut.errOf (r : ReadOut) : Option PyErr :=
  match r.result with
  | .error e => some e
  | .ok _ => none

/-- The sample rate returned by a successful call. -/
def ReadOut.rateOut (r : ReadOut) : Option ℕ :=
  match r.result with
  | .ok (_, sr) => sr
  | .error _ => none

/-- Embedding of `read_stems` (read.py lines 21-142) over a decoder
environment and a probe result.

* no audio stream: `raise Warning` (line 74);
* `stems_from_channels` mode (lines 76-87): requires exactly one audio
  stream whose channel count the grouping divides, and forces the
  selection to that single stream;
* otherwise the selection is `stem_id` (an int is wrapped into a
  singleton list, lines 88-95) or all audio stream indices;
* the start fix (lines 98-101), then the decode loop (lines 103-123);
* the length check (lines 125-129): on differing per-stream sample
  counts the source calls the nonexistent `warnings.warning` and so
  raises `AttributeError` before any truncation happens;
* `np.array(stems)` stacking (line 132; sample counts are equal here,
  and the trailing extent is taken from the first stream, matching the
  TODO in the source that channel counts are not checked);
* the channel-grouping reshape (lines 133-138) when requested and the
  stream is multichannel;
* `np.squeeze` unless `always_3d` (lines 140-141), and the final
  `(stems, sample_rate)` return value. -/
def read_stems (env : DecodeEnv) (meta : InfoMeta) (startq duration : Option ℚ)
    (stem_id : Option StemId) (always_3d : Bool) (sample_rate : Option ℕ)
    (stems_from_channels : ℕ) : ReadOut :=
  if meta.audio_streams.length = 0 then
    { calls := [], result := .error (.pyWarning "No stream was found with ffprobe") }
  else
    match
      (if stems_from_channels ≠ 0 then
        (if meta.audio_streams.length ≠ 1 then
          Except.error (PyErr.pyWarning "In this configuration, only a single substream is processed")
        else if (meta.audio_streams.getD 0 ⟨0, 0⟩).channels % stems_from_channels ≠ 0 then
          Except.error (PyErr.pyWarning "Stems should be encoded as multi-channel")
        else Except.ok [0])
      else Except.ok (match stem_id with
        | none => List.range meta.audio_streams.length
        | some (.one k) => [k]
        | some (.many l) => l)) with
    | .error e => { calls := [], result := .error e }
    | .ok substreams =>
      let st := substreams.foldl (decodeStep env meta (startFix startq) duration)
        { sr := sample_rate, calls := [], stems := [], err := none }
      { calls := st.calls,
        result :=
          match st.err with
          | some e => .error e
          | none =>
            match st.stems with
            | [] => .error (.indexError "index 0 is out of bounds")
            | s0 :: _ =>
              if (st.stems.map (fun w => w.d0)).all (fun d => d = s0.d0) then
                let stacked : Arr3 ℚ :=
                  ⟨st.stems.length, s0.d0, s0.d1,
                    fun si ti ci => (st.stems.getD si ⟨0, 0, fun _ _ => 0⟩).at2 ti ci⟩
                let stems3 :=
                  if stems_from_channels ≠ 0 ∧ stacked.d2 > 1 then
                    ((stacked.transpose102.reshapeSplitLast
                        stems_from_channels).transpose2031).sel0
                  else stacked
                let nd := ndOfArr3 stems3
                .ok (if always_3d then nd else nd.squeeze, st.sr)
              else .error lengthMismatchCrash }

/-- Filesystem side effects performed by the write path. -/
inductive Effect where
  | mkdir (path : String)
  | fsWrite (path : String)
  deriving DecidableEq

/-- Model of `Path(path).parent` as a string. -/
def parentOf (p : String) : String :=
  let parts := p.splitOn "/"
  if parts.length ≤ 1 then "." else String.intercalate "/" parts.dropLast

/-- Behaviour of the external encode process spawned by `write_audio`:
whether the writes to its stdin pipe (and the pipe close) succeed
without `IOError`, its exit code, and its captured stderr text. -/
structure ProcBehavior where
  stdin_ok : Bool
  returncode : ℕ
  stderr_txt : String
  deriving DecidableEq

instance {ε α : Type} [DecidableEq ε] [DecidableEq α] : DecidableEq (Except ε α)
  | .ok x, .ok y =>
    if h : x = y then isTrue (by rw [h]) else isFalse (fun hh => by cases hh; exact h rfl)
  | .error e, .error f =>
    if h : e = f then isTrue (by rw [h]) else isFalse (fun hh => by cases hh; exact h rfl)
  | .ok _, .error _ => isFalse (fun h => by cases h)
  | .error _, .ok _ => isFalse (fun h => by cases h)

/-- Result of a write call: the filesystem effect trace and either an
exception or normal completion. -/
structure WriteOut where
  effects : List Effect
  outcome : Except PyErr Unit
  deriving DecidableEq

/-- Embedding of `write_audio` (write.py lines 473-531) over a process
behaviour.  The source creates the parent directory, resolves the
output sample rate default, derives the channel count from the array
rank (raising `RuntimeError` for rank other than 1 or 2), spawns the
encode process, writes the buffer to its stdin pipe, closes the pipe
and waits.  Only `IOError` during the pipe interaction is caught and
re-raised as `Warning` wrapping the captured stderr; the exit code of
`process.wait()` is never examined.  The ffmpeg argument assembly
(lines 514-519) has no observable effect in this model and is elided. -/
def write_audio (proc : ProcBehavior) (path : String) (data : NDArray ℚ)
    (sample_rate : ℕ) (output_sample_rate : Option ℕ)
    (codec : Option String) (bitrate : Option ℕ) : WriteOut :=
  let mk : List Effect := [Effect.mkdir (parentOf path)]
  let _osr := output_sample_rate.getD sample_rate
  let _ := codec
  let _ := bitrate
  match data.shape.length with
  | 1 =>
    if proc.stdin_ok then { effects := mk ++ [Effect.fsWrite path], outcome := .ok () }
    else { effects := mk, outcome := .error (TranscodeError proc.stderr_txt) }
  | 2 =>
    if proc.stdin_ok then { effects := mk ++ [Effect.fsWrite path], outcome := .ok () }
    else { effects := mk, outcome := .error (TranscodeError proc.stderr_txt) }
  | _ => { effects := mk, outcome := .error (.runtimeError "Number of channels not supported") }

/-- The argument bundle that `ChannelsMapper.__call__` hands to its
single `write_audio` invocation. -/
structure WAArgs where
  data : NDArray ℚ
  sample_rate : ℕ
  output_sample_rate : ℕ
  codec : Option String
  bitrate : Option ℕ

/-- Embedding of `ChannelsMapper.__call__` (write.py lines 349-380):
resolve the output sample rate default, `transpose(1, 0, 2)` the
`(stems, samples, channels)` tensor, `reshape(nb_samples, -1)` to merge
the stem and channel axes, `np.squeeze`, and pass the result to one
`write_audio` invocation. -/
def channels_mapper_call (codec : Option String) (bitrate : Option ℕ)
    (output_sample_rate : Option ℕ) (data : Arr3 ℚ) (sample_rate : ℕ) : WAArgs :=
  let osr := output_sample_rate.getD sample_rate
  let d2 := (data.transpose102).reshapeMergeLast
  { data := (ndOfArr2 d2).squeeze, sample_rate := sample_rate,
    output_sample_rate := osr, codec := codec, bitrate := bitrate }

/-- Embedding of `build_channel_map` (write.py lines 66-158).  The
stem-name count guard comes first (line 88); then the mono and stereo
cases each produce `-filter_complex` with one pan branch per stem
followed by, per stem, a `-map` of its labelled output and three
metadata tag assignments (title, handler, handler_name), all set to the
stem name.  Any other channel count raises `NotImplementedError`. -/
def build_channel_map (nb_stems nb_channels : ℕ) (stem_names : List String) :
    Except PyErr (List String) :=
  if nb_stems ≠ stem_names.length then .error ConfigError
  else if nb_channels = 1 then
    .ok (["-filter_complex",
          String.intercalate ";" ((List.range nb_stems).map (fun idx =>
            "[a:0]pan=mono| c0=c" ++ toString idx ++ "[a" ++ toString idx ++ "]"))]
      ++ ((List.range nb_stems).map (fun idx =>
            ["-map", "[a" ++ toString idx ++ "]",
             "-metadata:s:a:" ++ toString idx, "title=" ++ stem_names.getD idx "",
             "-metadata:s:a:" ++ toString idx, "handler=" ++ stem_names.getD idx "",
             "-metadata:s:a:" ++ toString idx,
             "handler_name=" ++ stem_names.getD idx ""])).flatten)
  else if nb_channels = 2 then
    .ok (["-filter_complex",
          String.intercalate ";" ((List.range nb_stems).map (fun idx =>
            "[a:0]pan=stereo| c0=c" ++ toString (idx * 2) ++ " | c1=c" ++
              toString (idx * 2 + 1) ++ "[a" ++ toString idx ++ "]"))]
      ++ ((List.range nb_stems).map (fun idx =>
            ["-map", "[a" ++ toString idx ++ "]",
             "-metadata:s:a:" ++ toString idx, "title=" ++ stem_names.getD idx "",
             "-metadata:s:a:" ++ toString idx, "handler=" ++ stem_names.getD idx "",
             "-metadata:s:a:" ++ toString idx,
             "handler_name=" ++ stem_names.getD idx ""])).flatten)
  else .error UnsupportedLayoutError

/-- The argument list of a successful `build_channel_map` call
(empty on an exception). -/
def okList (e : Except PyErr (List String)) : List String :=
  match e with
  | .ok l => l
  | .error _ => []

/-- The `data` argument of `write_stems`: a tensor or a name-keyed dict
(write.py lines 610-616). -/
inductive StemData where
  | tensor (a : NDArray ℚ)
  | dict (entries : List (String × NDArray ℚ))

/-- A mux strategy as `write_stems` sees it: whether it is the
channels mapper (dict keys are not forwarded to that one), its current
stem-name configuration, and the effects its invocation performs. -/
structure MapperM where
  is_channels_mapper : Bool
  stem_names : Option (List String)
  run : Option (List String) → String → NDArray ℚ → ℕ → List Effect

/-- Model of `np.array(list_of_arrays)` for uniformly shaped inputs:
a new leading axis over the stacked arrays (C order).  The embedded
dict path of `write_stems` is used with uniformly shaped stem arrays. -/
def np_stack (l : List (NDArray ℚ)) : NDArray ℚ :=
  match l with
  | [] => { shape := [0], data := fun _ => 0 }
  | a :: _ =>
    { shape := l.length :: a.shape,
      data := fun n =>
        (l.getD (n / a.shape.prod) { shape := [], data := fun _ => 0 }).data
          (n % a.shape.prod) }

/-- Dict resolution of `write_stems` (write.py lines 610-616): dict
values are stacked into a tensor and the keys become the stem-name
configuration unless the mapper is the channels mapper. -/
def resolveData (mapper : MapperM) : StemData → NDArray ℚ × Option (List String)
  | .tensor a => (a, mapper.stem_names)
  | .dict es =>
    (np_stack (es.map (fun e => e.2)),
      if mapper.is_channels_mapper then mapper.stem_names else some (es.map (fun e => e.1)))

/-- Embedding of `write_stems` (write.py lines 534-625), parameterised
by the integer value of the first character of the detected ffmpeg
version string (`int(stempeg.ffmpeg_version()[0])`, line 604).  When
that value is below 3 the source calls the nonexistent
`warnings.warning` and so raises `AttributeError`.  Otherwise a dict is
resolved to a tensor, the 3-D shape contract is enforced (line 618-619,
`RuntimeError`), and only then is the mux strategy invoked; the
function itself performs no filesystem effect before dispatching. -/
def write_stems (ffmpeg_major : ℕ) (path : String) (data : StemData)
    (sample_rate : ℕ) (mapper : MapperM) : WriteOut :=
  if ffmpeg_major < 3 then
    { effects := [], outcome := .error (.attributeError "module warnings has no attribute warning") }
  else
    if (resolveData mapper data).1.shape.length ≠ 3 then
      { effects := [], outcome := .error ShapeError }
    else
      { effects :=
          mapper.run (resolveData mapper data).2 path (resolveData mapper data).1 sample_rate,
        outcome := .ok () }

/- Helper lemmas on C-order flat indices and on block-structured
argument lists. -/

theorem flat_div (x r X : ℕ) (h : r < X) : (x * X + r) / X = x := by
  have hX : 0 < X := lt_of_le_of_lt (Nat.zero_le r) h
  rw [Nat.add_comm, Nat.add_mul_div_right _ _ hX, Nat.div_eq_of_lt h, Nat.zero_add]

theorem flat_mod (x r X : ℕ) (h : r < X) : (x * X + r) % X = r := by
  rw [Nat.add_comm, Nat.add_mul_mod_self_right, Nat.mod_eq_of_lt h]

theorem pair_lt (t c T C : ℕ) (ht : t < T) (hc : c < C) : t * C + c < T * C :=
  calc t * C + c < t * C + C := Nat.add_lt_add_left hc _
    _ = (t + 1) * C := by ring
    _ ≤ T * C := Nat.mul_le_mul_right C ht

theorem flatten_blocks_length (f : ℕ → List String) (B : ℕ)
    (hf : ∀ k, (f k).length = B) :
    ∀ N : ℕ, ((List.range N).map f).flatten.length = B * N := by
  intro N
  induction N with
  | zero => simp
  | succ n ih =>
    rw [List.range_succ, List.map_append, List.flatten_append, List.length_append, ih]
    simp [hf n, Nat.mul_succ]

theorem flatten_blocks_getD (f : ℕ → List String) (B : ℕ)
    (hf : ∀ k, (f k).length = B) :
    ∀ N i j : ℕ, i < N → j < B →
      ((List.range N).map f).flatten.getD (B * i + j) "" = (f i).getD j "" := by
  intro N
  induction N with
  | zero => intro i j hi _; exact absurd hi (Nat.not_lt_zero i)
  | succ n ih =>
    intro i j hi hj
    rw [List.range_succ, List.map_append, List.flatten_append]
    rcases Nat.lt_or_ge i n with hin | hin
    · rw [List.getD_append]
      · exact ih i j hin hj
      · rw [flatten_blocks_length f B hf n]
        calc B * i + j < B * i + B := Nat.add_lt_add_left hj _
          _ = B * (i + 1) := by ring
          _ ≤ B * n := Nat.mul_le_mul_left B hin
    · have hieq : i = n := Nat.le_antisymm (Nat.lt_succ_iff.mp hi) hin
      subst hieq
      rw [List.getD_append_right]
      · rw [flatten_blocks_length f B hf i]
        simp [hf i]
      · rw [flatten_blocks_length f B hf i]
        exact Nat.le_add_right _ _

/-- C10: `read_stems` accepts a single sub-stream index as `stem_id`;
the scalar is wrapped into a one-element selection and the call is
identical to passing the one-element list. -/
theorem C10_scalar_stem_id (env : DecodeEnv) (meta : InfoMeta)
    (startq duration : Option ℚ) (always_3d : Bool) (sample_rate : Option ℕ) (k : ℕ) :
    read_stems env meta startq duration (some (.one k)) always_3d sample_rate 0 =
      read_stems env meta startq duration (some (.many [k])) always_3d sample_rate 0 := rfl

/-- C7 counterexample: at `nb_stems = 1`, `nb_channels = 4`,
`stem_names = []`, the channel count is outside {1, 2} yet
`build_channel_map` raises `ConfigError` (the stem-name count check
comes first, write.py line 88), not `UnsupportedLayoutError` as the
claim demands for every such channel count. -/
theorem C7_counterexample :
    build_channel_map 1 4 [] = .error ConfigError ∧ ConfigError ≠ UnsupportedLayoutError :=
  ⟨rfl, by decide⟩

/-- C7 amended: the stem-name count check precedes the layout check:
`ConfigError` whenever the name count mismatches (even for an invalid
channel count); `UnsupportedLayoutError` when the names match and the
channel count is outside {1, 2}; success in every remaining case. -/
theorem C7_amended (nb_stems nb_channels : ℕ) (stem_names : List String) :
    (nb_stems ≠ stem_names.length →
      build_channel_map nb_stems nb_channels stem_names = .error ConfigError) ∧
    (nb_stems = stem_names.length → nb_channels ≠ 1 → nb_channels ≠ 2 →
      build_channel_map nb_stems nb_channels stem_names = .error UnsupportedLayoutError) ∧
    (nb_stems = stem_names.length → (nb_channels = 1 ∨ nb_channels = 2) →
      (build_channel_map nb_stems nb_channels stem_names).isOk = true) := by
  unfold build_channel_map
  refine ⟨fun h => by rw [if_pos h], fun h h1 h2 => ?_, fun h hc => ?_⟩
  · rw [if_neg (by omega), if_neg h1, if_neg h2]
  · rcases hc with hc | hc
    · rw [if_neg (by omega), if_pos hc]
      rfl
    · subst hc
      rw [if_neg (by omega)]
      rw [if_neg (by omega), if_pos rfl]
      rfl

/-- C7 amended witness: concrete instances of all three cases. -/
theorem C7_amended_witness :
    build_channel_map 2 4 ["a", "b"] = .error UnsupportedLayoutError ∧
    build_channel_map 1 1 [] = .error ConfigError ∧
    (build_channel_map 1 1 ["a"]).isOk = true :=
  ⟨(C7_amended 2 4 ["a", "b"]).2.1 rfl (by decide) (by decide),
   (C7_amended 1 1 []).1 (by decide),
   (C7_amended 1 1 ["a"]).2.2 rfl (Or.inl rfl)⟩

/-- C3: a `write_stems` call whose resolved tensor is not 3-dimensional
fails with `ShapeError` and performs no filesystem effect (the detected
ffmpeg major version is at least 3, so the version-warning line, which
itself would raise before the shape check, is not taken). -/
theorem C3_shape_error (ffmpeg_major : ℕ) (path : String) (data : StemData)
    (sample_rate : ℕ) (mapper : MapperM) (hv : 3 ≤ ffmpeg_major)
    (hs : (resolveData mapper data).1.shape.length ≠ 3) :
    write_stems ffmpeg_major path data sample_rate mapper =
      { effects := [], outcome := .error ShapeError } := by
  unfold write_stems
  rw [if_neg (by omega), if_pos hs]

/-- C3 witness: a 2-D tensor under a mapper that would write, with
ffmpeg major version 4. -/
theorem C3_shape_error_witness :
    write_stems 4 "out.m4a" (.tensor ⟨[2, 3], fun _ => 0⟩) 44100
        ⟨false, none, fun _ _ _ _ => [Effect.mkdir "d"]⟩ =
      { effects := [], outcome := .error ShapeError } ∧
    (3 : ℕ) ≤ 4 ∧
    (resolveData ⟨false, none, fun _ _ _ _ => [Effect.mkdir "d"]⟩
        (.tensor ⟨[2, 3], fun _ => 0⟩)).1.shape.length ≠ 3 :=
  ⟨C3_shape_error 4 "out.m4a" (.tensor ⟨[2, 3], fun _ => 0⟩) 44100
      ⟨false, none, fun _ _ _ _ => [Effect.mkdir "d"]⟩ (by omega) (by decide),
   by omega, by decide⟩

/-- C4 counterexample: a process that accepts all stdin writes but
exits with code 1 makes `write_audio` return normally — the source
never examines the exit code of `process.wait()` (write.py line 529),
so the claimed failure on non-zero exit does not happen. -/
theorem C4_counterexample :
    (write_audio ⟨true, 1, "boom"⟩ "a/out.mp4" ⟨[2, 1], fun _ => 0⟩
        44100 none none none).outcome = .ok () ∧
    (⟨true, 1, "boom"⟩ : ProcBehavior).returncode ≠ 0 :=
  ⟨rfl, by decide⟩

/-- C4 amended: for rank-1 or rank-2 data, `write_audio` fails with
`TranscodeError` (wrapping the captured stderr) exactly when the write
to the stdin pipe fails; the exit code is never examined, so a non-zero
exit with successful pipe writes returns normally and silently. -/
theorem C4_amended (proc : ProcBehavior) (path : String) (data : NDArray ℚ)
    (sample_rate : ℕ) (osr : Option ℕ) (codec : Option String) (bitrate : Option ℕ)
    (hnd : data.shape.length = 1 ∨ data.shape.length = 2) :
    (write_audio proc path data sample_rate osr codec bitrate).outcome =
      (if proc.stdin_ok then .ok () else .error (TranscodeError proc.stderr_txt)) := by
  unfold write_audio
  rcases hnd with h | h <;> rw [h] <;> by_cases hp : proc.stdin_ok <;> simp [hp]

/-- C4 amended witness: a broken pipe yields the wrapped stderr error. -/
theorem C4_amended_witness :
    (write_audio ⟨false, 0, "boom"⟩ "o.wav" ⟨[5], fun _ => 0⟩
        44100 none none none).outcome = .error (TranscodeError "boom") := by
  have h := C4_amended ⟨false, 0, "boom"⟩ "o.wav" ⟨[5], fun _ => 0⟩
    44100 none none none (Or.inl rfl)
  simpa using h

/-- C1: the failing input is a container with two mono sub-streams
whose decoded sample counts differ (3 frames and 2 frames).  The claim
says the call truncates to the minimum, warns, and returns normally;
the source instead calls the nonexistent `warnings.warning`
(read.py line 127) and the call raises `AttributeError` before any
truncation, so `read_stems` returns no tensor at all. -/
theorem C1_bug_eval :
    (read_stems (fun kw => if kw.map = "0:0" then [1, 2, 3] else [1, 2])
        ⟨[⟨1, 44100⟩, ⟨1, 44100⟩]⟩ none none none false none 0).errOf =
      some lengthMismatchCrash := by
  rfl

/-- C2 counterexample: two sub-streams with native rates 44100 and
48000, read with `sample_rate=None`.  The `sample_rate` variable is
assigned from the first stream and persists (read.py lines 104-105), so
the second decode invocation carries `ar = 44100`, resampling the
second stream to the first stream's rate instead of decoding it at its
own native 48000. -/
theorem C2_counterexample :
    ((read_stems (fun _ => [0]) ⟨[⟨1, 44100⟩, ⟨1, 48000⟩]⟩
        none none none false none 0).calls.map (fun kw => kw.ar)) = [44100, 44100] ∧
    ((⟨[⟨1, 44100⟩, ⟨1, 48000⟩]⟩ : InfoMeta).audio_streams.getD 1 ⟨0, 0⟩).sample_rate = 48000 ∧
    (44100 : ℕ) ≠ 48000 :=
  ⟨rfl, rfl, by decide⟩

/-- C9 counterexample: with `start = 0` (below 1e-4 as the claim
demands), the Python truthiness test `if start:` skips the zeroing fix,
so an explicit seek option of 0 seconds is forwarded to the decode
invocation, unlike `start=None` which forwards none — the two calls do
not assemble the same decode invocation. -/
theorem C9_counterexample :
    ((read_stems (fun _ => [0]) ⟨[⟨1, 44100⟩]⟩ (some 0) none none false none 0).calls.map
      (fun kw => kw.ss)) = [some (toFFmpegTime 0)] ∧
    ((read_stems (fun _ => [0]) ⟨[⟨1, 44100⟩]⟩ none none none false none 0).calls.map
      (fun kw => kw.ss)) = [none] ∧
    (read_stems (fun _ => [0]) ⟨[⟨1, 44100⟩]⟩ (some 0) none none false none 0).calls ≠
      (read_stems (fun _ => [0]) ⟨[⟨1, 44100⟩]⟩ none none none false none 0).calls := by
  refine ⟨rfl, rfl, fun h => ?_⟩
  have h2 : ([some (toFFmpegTime 0)] : List (Option String)) = [none] := by
    have hmap := congrArg (List.map (fun kw : OutputKw => kw.ss)) h
    calc ([some (toFFmpegTime 0)] : List (Option String)) =
        (read_stems (fun _ => [0]) ⟨[⟨1, 44100⟩]⟩ (some 0) none none false none 0).calls.map
          (fun kw => kw.ss) := rfl
      _ = (read_stems (fun _ => [0]) ⟨[⟨1, 44100⟩]⟩ none none none false none 0).calls.map
          (fun kw => kw.ss) := hmap
      _ = [none] := rfl
  exact Option.noConfusion (List.head_eq_of_cons_eq h2)

/-- C9 amended: for strictly positive `start` below 1e-4 seconds the
call is identical to `start=None` (the option is zeroed before the
decode loop); `start = 0` itself is excluded because Python truthiness
lets it through as an explicit 0-second seek option. -/
theorem C9_amended (env : DecodeEnv) (meta : InfoMeta) (duration : Option ℚ)
    (stem_id : Option StemId) (always_3d : Bool) (sample_rate : Option ℕ)
    (g : ℕ) (s : ℚ) (h0 : 0 < s) (h1 : s < 1 / 10000) :
    read_stems env meta (some s) duration stem_id always_3d sample_rate g =
      read_stems env meta none duration stem_id always_3d sample_rate g := by
  have hfix : startFix (some s) = startFix none := by
    show (if s ≠ 0 then (if s < 1 / 10000 then none else some s) else some s) =
      startFix none
    rw [if_pos (ne_of_gt h0), if_pos h1]
    rfl
  unfold read_stems
  rw [hfix]

/-- C9 amended witness: `start = 1/20000` behaves as `start=None`. -/
theorem C9_amended_witness :
    read_stems (fun _ => [0]) ⟨[⟨1, 44100⟩]⟩ (some (1 / 20000)) none none false none 0 =
      read_stems (fun _ => [0]) ⟨[⟨1, 44100⟩]⟩ none none none false none 0 ∧
    (0 : ℚ) < 1 / 20000 ∧ (1 / 20000 : ℚ) < 1 / 10000 :=
  ⟨C9_amended (fun _ => [0]) ⟨[⟨1, 44100⟩]⟩ none none false none 0 (1 / 20000)
      (by norm_num) (by norm_num),
   by norm_num, by norm_num⟩

/-- C8 counterexample: the 3-D tensor of shape `(1, 2, 1)` is reshaped
to `(2, 1)` and then `np.squeeze` (write.py line 372) collapses it to a
1-D array of shape `(2,)`, so the encoder does not receive a 2-D array
of shape `(samples, stems * channels)` as claimed. -/
theorem C8_counterexample :
    (channels_mapper_call none none none ⟨1, 2, 1, fun _ t _ => (t : ℚ) + 5⟩
        44100).data.shape = [2] ∧
    ([2] : List ℕ) ≠ [2, 1] :=
  ⟨rfl, by decide⟩

theorem decodeStep_ar_invariant (env : DecodeEnv) (meta : InfoMeta)
    (startq duration : Option ℚ) (r : ℕ) (st : LoopState) (x : ℕ)
    (h1 : ∀ kw ∈ st.calls, kw.ar = r) (h2 : st.err = none → st.sr = some r) :
    (∀ kw ∈ (decodeStep env meta startq duration st x).calls, kw.ar = r) ∧
    ((decodeStep env meta startq duration st x).err = none →
      (decodeStep env meta startq duration st x).sr = some r) := by
  unfold decodeStep
  rcases herr : st.err with _ | e
  · have hsr := h2 herr
    simp only [herr, hsr]
    by_cases hx : x < meta.audio_streams.length
    · simp only [if_pos hx]
      by_cases hcond : (meta.audio_streams.getD x ⟨0, 0⟩).channels = 0 ∨
          (env { format := "f32le", ar := r, t := duration.map toFFmpegTime,
                 ss := startq.map toFFmpegTime, map := "0:" ++ toString x }).length %
            (meta.audio_streams.getD x ⟨0, 0⟩).channels ≠ 0
      · simp only [if_pos hcond]
        refine ⟨fun kw hkw => ?_, fun _ => trivial⟩
        rcases List.mem_append.mp hkw with hl | hrr
        · exact h1 kw hl
        · rw [List.mem_singleton.mp hrr]
      · simp only [if_neg hcond]
        refine ⟨fun kw hkw => ?_, fun _ => trivial⟩
        rcases List.mem_append.mp hkw with hl | hrr
        · exact h1 kw hl
        · rw [List.mem_singleton.mp hrr]
    · simp only [if_neg hx]
      exact ⟨h1, fun _ => trivial⟩
  · simp only [herr]
    exact ⟨h1, fun h => Option.noConfusion h⟩

theorem loop_ar_invariant (env : DecodeEnv) (meta : InfoMeta)
    (startq duration : Option ℚ) (r : ℕ) :
    ∀ (l : List ℕ) (st : LoopState),
      (∀ kw ∈ st.calls, kw.ar = r) → (st.err = none → st.sr = some r) →
      ∀ kw ∈ (l.foldl (decodeStep env meta startq duration) st).calls, kw.ar = r := by
  intro l
  induction l with
  | nil => intro st h1 _; simpa using h1
  | cons x xs ih =>
    intro st h1 h2
    rw [List.foldl_cons]
    exact ih _ (decodeStep_ar_invariant env meta startq duration r st x h1 h2).1
      (decodeStep_ar_invariant env meta startq duration r st x h1 h2).2

theorem decodeStep_first (env : DecodeEnv) (meta : InfoMeta)
    (startq duration : Option ℚ) (s : ℕ) :
    (∀ kw ∈ (decodeStep env meta startq duration ⟨none, [], [], none⟩ s).calls,
      kw.ar = (meta.audio_streams.getD s ⟨0, 0⟩).sample_rate) ∧
    ((decodeStep env meta startq duration ⟨none, [], [], none⟩ s).err = none →
      (decodeStep env meta startq duration ⟨none, [], [], none⟩ s).sr =
        some (meta.audio_streams.getD s ⟨0, 0⟩).sample_rate) := by
  unfold decodeStep
  by_cases hx : s < meta.audio_streams.length
  · simp only [if_pos hx]
    by_cases hcond : (meta.audio_streams.getD s ⟨0, 0⟩).channels = 0 ∨
        (env { format := "f32le", ar := (meta.audio_streams.getD s ⟨0, 0⟩).sample_rate,
               t := duration.map toFFmpegTime,
               ss := startq.map toFFmpegTime, map := "0:" ++ toString s }).length %
          (meta.audio_streams.getD s ⟨0, 0⟩).channels ≠ 0
    · simp only [if_pos hcond]
      refine ⟨fun kw hkw => ?_, fun _ => trivial⟩
      rcases List.mem_append.mp hkw with hl | hrr
      · exact absurd hl (List.not_mem_nil kw)
      · rw [List.mem_singleton.mp hrr]
    · simp only [if_neg hcond]
      refine ⟨fun kw hkw => ?_, fun _ => trivial⟩
      rcases List.mem_append.mp hkw with hl | hrr
      · exact absurd hl (List.not_mem_nil kw)
      · rw [List.mem_singleton.mp hrr]
  · simp only [if_neg hx]
    exact ⟨fun kw hkw => by simp at hkw, fun h => Option.noConfusion h⟩

/-- C2 amended: with `sample_rate=None`, every decode invocation of the
call carries `ar` equal to the native rate of the FIRST selected
sub-stream — the `sample_rate` variable is assigned on the first
iteration and persists, so later streams are resampled to the first
stream's rate rather than decoded at their own native rates. -/
theorem C2_amended (env : DecodeEnv) (meta : InfoMeta) (startq duration : Option ℚ)
    (always_3d : Bool) (s : ℕ) (rest : List ℕ) :
    ∀ kw ∈ (read_stems env meta startq duration (some (.many (s :: rest)))
        always_3d none 0).calls,
      kw.ar = (meta.audio_streams.getD s ⟨0, 0⟩).sample_rate := by
  intro kw hkw
  unfold read_stems at hkw
  by_cases hm : meta.audio_streams.length = 0
  · rw [if_pos hm] at hkw
    simp at hkw
  · rw [if_neg hm] at hkw
    simp only [ne_eq, not_true_eq_false, if_false, reduceIte] at hkw
    rw [List.foldl_cons] at hkw
    exact loop_ar_invariant env meta (startFix startq) duration
      (meta.audio_streams.getD s ⟨0, 0⟩).sample_rate rest _
      (decodeStep_first env meta (startFix startq) duration s).1
      (decodeStep_first env meta (startFix startq) duration s).2 kw hkw

/-- C2 amended witness: the second decode invocation over streams with
native rates 44100 and 48000 carries `ar = 44100`. -/
theorem C2_amended_witness :
    ((read_stems (fun _ => [0]) ⟨[⟨1, 44100⟩, ⟨1, 48000⟩]⟩ none none
        (some (.many [0, 1])) false none 0).calls.getD 1 ⟨"", 0, none, none, ""⟩).ar =
      44100 := by
  have h := C2_amended (fun _ => [0]) ⟨[⟨1, 44100⟩, ⟨1, 48000⟩]⟩ none none false 0 [1]
    ((read_stems (fun _ => [0]) ⟨[⟨1, 44100⟩, ⟨1, 48000⟩]⟩ none none
        (some (.many [0, 1])) false none 0).calls.getD 1 ⟨"", 0, none, none, ""⟩)
    (by decide)
  simpa using h

/-- C8 amended: for non-degenerate shapes (at least 2 samples and a
folded channel dimension of at least 2, so that `np.squeeze` is the
identity), the interleaved-multichannel strategy passes a 2-D array of
shape `(samples, stems * channels)` whose element
`(t, s * channels + c)` is element `(s, t, c)` of the input; degenerate
length-1 axes would be removed by the final squeeze. -/
theorem C8_amended (a : Arr3 ℚ) (sample_rate : ℕ) (osr : Option ℕ)
    (codec : Option String) (bitrate : Option ℕ) (s t c : ℕ)
    (hT : 2 ≤ a.d1) (hSC : 2 ≤ a.d0 * a.d2)
    (hs : s < a.d0) (ht : t < a.d1) (hc : c < a.d2) :
    (channels_mapper_call codec bitrate osr a sample_rate).data.shape =
      [a.d1, a.d0 * a.d2] ∧
    (channels_mapper_call codec bitrate osr a sample_rate).data.data
      (t * (a.d0 * a.d2) + (s * a.d2 + c)) = a.at3 s t c := by
  have h1 : a.d1 ≠ 1 := by omega
  have h2 : a.d0 * a.d2 ≠ 1 := by omega
  have hr : s * a.d2 + c < a.d0 * a.d2 := pair_lt s c a.d0 a.d2 hs hc
  constructor
  · simp only [channels_mapper_call, ndOfArr2, NDArray.squeeze, Arr3.transpose102,
      Arr3.reshapeMergeLast, List.filter, h1, h2, decide_not]
    simp [h1, h2]
  · simp only [channels_mapper_call, ndOfArr2, NDArray.squeeze, Arr3.transpose102,
      Arr3.reshapeMergeLast]
    rw [flat_div _ _ _ hr, flat_mod _ _ _ hr, flat_div _ _ _ hc, flat_mod _ _ _ hc]

/-- C8 amended witness: concrete tensor of shape `(2, 3, 2)`; element
`(1, 2, 1)` lands at flat position `(2, 1 * 2 + 1)` of the 2-D array. -/
theorem C8_amended_witness :
    (channels_mapper_call none none none
        ⟨2, 3, 2, fun s t c => (s * 100 + t * 10 + c : ℚ)⟩ 44100).data.shape = [3, 4] ∧
    (channels_mapper_call none none none
        ⟨2, 3, 2, fun s t c => (s * 100 + t * 10 + c : ℚ)⟩ 44100).data.data
      (2 * (2 * 2) + (1 * 2 + 1)) = 121 := by
  have h := C8_amended ⟨2, 3, 2, fun s t c => (s * 100 + t * 10 + c : ℚ)⟩ 44100
    none none none 1 2 1 (by decide) (by decide) (by decide) (by decide) (by decide)
  refine ⟨h.1, ?_⟩
  rw [h.2]
  norm_num

/-- C5 counterexample: a single 4-channel sub-stream (2 stems encoded
as stereo pairs, 3 frames) read with `stems_from_channels = 2` yields a
tensor of shape `(2, 3, 2)` — the stem axis has length 2 as claimed,
but each stem is 2-channel (stereo), not mono, and stem 0 receives the
contiguous channel pair (0, 1) (element `(0, 0, 1)` is channel 1 of
frame 0, value 20), not the parity split (which would give channel 2,
value 30). -/
theorem C5_counterexample :
    (read_stems (fun kw => if kw.map = "0:0" then
        [10, 20, 30, 40, 11, 21, 31, 41, 12, 22, 32, 42] else [])
      ⟨[⟨4, 44100⟩]⟩ none none none false none 2).outShape = [2, 3, 2] ∧
    (read_stems (fun kw => if kw.map = "0:0" then
        [10, 20, 30, 40, 11, 21, 31, 41, 12, 22, 32, 42] else [])
      ⟨[⟨4, 44100⟩]⟩ none none none false none 2).outShape ≠ [2, 3, 1] ∧
    (read_stems (fun kw => if kw.map = "0:0" then
        [10, 20, 30, 40, 11, 21, 31, 41, 12, 22, 32, 42] else [])
      ⟨[⟨4, 44100⟩]⟩ none none none false none 2).outAt 1 = 20 ∧
    (read_stems (fun kw => if kw.map = "0:0" then
        [10, 20, 30, 40, 11, 21, 31, 41, 12, 22, 32, 42] else [])
      ⟨[⟨4, 44100⟩]⟩ none none none false none 2).outAt 1 ≠ 30 := by
  refine ⟨rfl, by decide, rfl, by decide⟩

theorem decode_single_4ch (env : DecodeEnv) (rate T : ℕ)
    (hlen : (env ⟨"f32le", rate, none, none, "0:0"⟩).length = 4 * T) :
    decodeStep env ⟨[⟨4, rate⟩]⟩ none none ⟨none, [], [], none⟩ 0 =
      ⟨some rate, [⟨"f32le", rate, none, none, "0:0"⟩],
        [⟨T, 4, fun ti ci => (env ⟨"f32le", rate, none, none, "0:0"⟩).getD (ti * 4 + ci) 0⟩],
        none⟩ := by
  have hmap : ("0:" ++ toString 0 : String) = "0:0" := rfl
  unfold decodeStep
  simp only [hmap, Option.map_none']
  simp [hlen, Nat.mul_mod_right, Nat.mul_div_cancel_left]

theorem read_single_4ch_grouped (env : DecodeEnv) (rate T : ℕ) (hT : 2 ≤ T)
    (hlen : (env ⟨"f32le", rate, none, none, "0:0"⟩).length = 4 * T) :
    read_stems env ⟨[⟨4, rate⟩]⟩ none none none false none 2 =
      { calls := [⟨"f32le", rate, none, none, "0:0"⟩],
        result := .ok
          (⟨[2, T, 2],
            fun n => (env ⟨"f32le", rate, none, none, "0:0"⟩).getD
              (n / 2 % T * 4 + (n / (T * 2) * 2 + n % 2)) 0⟩,
           some rate) } := by
  have hT1 : T ≠ 1 := by omega
  have hsf : startFix (none : Option ℚ) = none := rfl
  have hstep := decode_single_4ch env rate T hlen
  unfold read_stems
  simp only [hsf]
  simp [hstep, hT1, ndOfArr3, Arr3.transpose102, Arr3.reshapeSplitLast, Arr4.transpose2031,
    Arr4.sel0, NDArray.squeeze]

/-- C5 amended: reading a single 4-channel sub-stream (2 stems encoded
as stereo pairs, at least 2 frames) with `stems_from_channels = 2`
makes exactly one decode invocation at the stream's native rate (no
resampling) and yields a tensor with stem axis length 2 in which each
stem is 2-channel (stereo), stem `s` receiving the contiguous channel
pair `(2s, 2s + 1)` — not a parity split — via the pure
transpose/reshape chain of read.py lines 133-138. -/
theorem C5_amended (env : DecodeEnv) (rate T : ℕ) (hT : 2 ≤ T)
    (hlen : (env ⟨"f32le", rate, none, none, "0:0"⟩).length = 4 * T) :
    (read_stems env ⟨[⟨4, rate⟩]⟩ none none none false none 2).calls =
      [⟨"f32le", rate, none, none, "0:0"⟩] ∧
    (read_stems env ⟨[⟨4, rate⟩]⟩ none none none false none 2).outShape = [2, T, 2] ∧
    ∀ s t c, s < 2 → t < T → c < 2 →
      (read_stems env ⟨[⟨4, rate⟩]⟩ none none none false none 2).outAt
          (s * (T * 2) + (t * 2 + c)) =
        (env ⟨"f32le", rate, none, none, "0:0"⟩).getD (t * 4 + (s * 2 + c)) 0 := by
  have hread := read_single_4ch_grouped env rate T hT hlen
  refine ⟨by rw [hread], by rw [hread]; rfl, ?_⟩
  intro s t c hs ht hc
  rw [hread]
  have key : s * (T * 2) + (t * 2 + c) = (s * T + t) * 2 + c := by ring
  have h1 : (s * (T * 2) + (t * 2 + c)) / (T * 2) = s :=
    flat_div s (t * 2 + c) (T * 2) (pair_lt t c T 2 ht hc)
  have h2 : (s * (T * 2) + (t * 2 + c)) % 2 = c := by
    rw [key]; exact flat_mod _ _ _ hc
  have h3 : (s * (T * 2) + (t * 2 + c)) / 2 % T = t := by
    rw [key, flat_div _ _ _ hc, Nat.mul_comm s T, Nat.mul_add_mod, Nat.mod_eq_of_lt ht]
  show (env ⟨"f32le", rate, none, none, "0:0"⟩).getD
      ((s * (T * 2) + (t * 2 + c)) / 2 % T * 4 +
        ((s * (T * 2) + (t * 2 + c)) / (T * 2) * 2 + (s * (T * 2) + (t * 2 + c)) % 2)) 0 =
    (env ⟨"f32le", rate, none, none, "0:0"⟩).getD (t * 4 + (s * 2 + c)) 0
  rw [h1, h2, h3]

/-- C5 amended witness: 3 frames of the 4-channel stream
`[10, 20, 30, 40], [11, 21, 31, 41], [12, 22, 32, 42]`; element
`(stem 1, frame 0, channel 1)` is source channel 3 of frame 0,
value 40. -/
theorem C5_amended_witness :
    (read_stems (fun kw => if kw.map = "0:0" then
        [10, 20, 30, 40, 11, 21, 31, 41, 12, 22, 32, 42] else [])
      ⟨[⟨4, 44100⟩]⟩ none none none false none 2).calls =
      [⟨"f32le", 44100, none, none, "0:0"⟩] ∧
    (read_stems (fun kw => if kw.map = "0:0" then
        [10, 20, 30, 40, 11, 21, 31, 41, 12, 22, 32, 42] else [])
      ⟨[⟨4, 44100⟩]⟩ none none none false none 2).outShape = [2, 3, 2] ∧
    (read_stems (fun kw => if kw.map = "0:0" then
        [10, 20, 30, 40, 11, 21, 31, 41, 12, 22, 32, 42] else [])
      ⟨[⟨4, 44100⟩]⟩ none none none false none 2).outAt (1 * (3 * 2) + (0 * 2 + 1)) = 40 := by
  have h := C5_amended (fun kw => if kw.map = "0:0" then
      [10, 20, 30, 40, 11, 21, 31, 41, 12, 22, 32, 42] else [])
    44100 3 (by omega) (by decide)
  refine ⟨h.1, h.2.1, ?_⟩
  have h3 := h.2.2 1 0 1 (by omega) (by omega) (by omega)
  rw [h3]
  rfl

/-- C6: for `channels_per_stem` 1 or 2 and a stem-name list of length
`nb_stems`, `build_channel_map` succeeds with an argument list of
`2 + 8 * nb_stems` entries: a `-filter_complex` whose branch for stem
`i` isolates channel `i` (mono) or the pair `(2i, 2i + 1)` (stereo)
into labelled output `[ai]`, followed per stem by a `-map` of `[ai]`
and three metadata tag assignments on output audio stream `i` — title,
handler and handler_name — all set to the stem's name. -/
theorem C6_channel_map (N ch : ℕ) (names : List String)
    (hn : names.length = N) (hc : ch = 1 ∨ ch = 2) :
    (build_channel_map N ch names).isOk = true ∧
    (okList (build_channel_map N ch names)).length = 2 + 8 * N ∧
    (okList (build_channel_map N ch names)).getD 0 "" = "-filter_complex" ∧
    (okList (build_channel_map N ch names)).getD 1 "" =
      String.intercalate ";" ((List.range N).map (fun idx =>
        if ch = 1 then "[a:0]pan=mono| c0=c" ++ toString idx ++ "[a" ++ toString idx ++ "]"
        else "[a:0]pan=stereo| c0=c" ++ toString (idx * 2) ++ " | c1=c" ++
          toString (idx * 2 + 1) ++ "[a" ++ toString idx ++ "]")) ∧
    ∀ i, i < N →
      (okList (build_channel_map N ch names)).getD (2 + (8 * i + 0)) "" = "-map" ∧
      (okList (build_channel_map N ch names)).getD (2 + (8 * i + 1)) "" =
        "[a" ++ toString i ++ "]" ∧
      (okList (build_channel_map N ch names)).getD (2 + (8 * i + 2)) "" =
        "-metadata:s:a:" ++ toString i ∧
      (okList (build_channel_map N ch names)).getD (2 + (8 * i + 3)) "" =
        "title=" ++ names.getD i "" ∧
      (okList (build_channel_map N ch names)).getD (2 + (8 * i + 4)) "" =
        "-metadata:s:a:" ++ toString i ∧
      (okList (build_channel_map N ch names)).getD (2 + (8 * i + 5)) "" =
        "handler=" ++ names.getD i "" ∧
      (okList (build_channel_map N ch names)).getD (2 + (8 * i + 6)) "" =
        "-metadata:s:a:" ++ toString i ∧
      (okList (build_channel_map N ch names)).getD (2 + (8 * i + 7)) "" =
        "handler_name=" ++ names.getD i "" := by
  have hguard : ¬(N ≠ names.length) := by omega
  have hblock : ∀ k : ℕ, (["-map", "[a" ++ toString k ++ "]",
      "-metadata:s:a:" ++ toString k, "title=" ++ names.getD k "",
      "-metadata:s:a:" ++ toString k, "handler=" ++ names.getD k "",
      "-metadata:s:a:" ++ toString k,
      "handler_name=" ++ names.getD k ""] : List String).length = 8 := fun k => rfl
  rcases hc with hc | hc <;> subst hc
  · have hbuild : build_channel_map N 1 names =
        .ok (["-filter_complex",
              String.intercalate ";" ((List.range N).map (fun idx =>
                "[a:0]pan=mono| c0=c" ++ toString idx ++ "[a" ++ toString idx ++ "]"))]
          ++ ((List.range N).map (fun idx =>
                ["-map", "[a" ++ toString idx ++ "]",
                 "-metadata:s:a:" ++ toString idx, "title=" ++ names.getD idx "",
                 "-metadata:s:a:" ++ toString idx, "handler=" ++ names.getD idx "",
                 "-metadata:s:a:" ++ toString idx,
                 "handler_name=" ++ names.getD idx ""])).flatten) := by
      unfold build_channel_map
      rw [if_neg hguard]
      rfl
    simp only [hbuild, okList]
    have hch : ∀ i j : ℕ, j < 8 → i < N →
        ((["-filter_complex",
            String.intercalate ";" ((List.range N).map (fun idx =>
              "[a:0]pan=mono| c0=c" ++ toString idx ++ "[a" ++ toString idx ++ "]"))]
          ++ ((List.range N).map (fun idx =>
                (["-map", "[a" ++ toString idx ++ "]",
                 "-metadata:s:a:" ++ toString idx, "title=" ++ names.getD idx "",
                 "-metadata:s:a:" ++ toString idx, "handler=" ++ names.getD idx "",
                 "-metadata:s:a:" ++ toString idx,
                 "handler_name=" ++ names.getD idx ""] : List String))).flatten) : List String).getD
            (2 + (8 * i + j)) "" =
          ((["-map", "[a" ++ toString i ++ "]",
             "-metadata:s:a:" ++ toString i, "title=" ++ names.getD i "",
             "-metadata:s:a:" ++ toString i, "handler=" ++ names.getD i "",
             "-metadata:s:a:" ++ toString i,
             "handler_name=" ++ names.getD i ""] : List String)).getD j "" := by
      intro i j hj hi
      rw [List.getD_append_right _ _ _ _ (by simp)]
      have e2 : 2 + (8 * i + j) - (["-filter_complex",
          String.intercalate ";" ((List.range N).map (fun idx =>
            "[a:0]pan=mono| c0=c" ++ toString idx ++ "[a" ++ toString idx ++ "]"))] : List String).length
          = 8 * i + j := by simp
      rw [e2, flatten_blocks_getD _ 8 hblock N i j hi hj]
    refine ⟨rfl, ?_, rfl, by simp, fun i hi => ?_⟩
    · rw [List.length_append, flatten_blocks_length _ 8 hblock N]
      rfl
    · exact ⟨hch i 0 (by omega) hi, hch i 1 (by omega) hi, hch i 2 (by omega) hi,
        hch i 3 (by omega) hi, hch i 4 (by omega) hi, hch i 5 (by omega) hi,
        hch i 6 (by omega) hi, hch i 7 (by omega) hi⟩
  · have hbuild : build_channel_map N 2 names =
        .ok (["-filter_complex",
              String.intercalate ";" ((List.range N).map (fun idx =>
                "[a:0]pan=stereo| c0=c" ++ toString (idx * 2) ++ " | c1=c" ++
                  toString (idx * 2 + 1) ++ "[a" ++ toString idx ++ "]"))]
          ++ ((List.range N).map (fun idx =>
                ["-map", "[a" ++ toString idx ++ "]",
                 "-metadata:s:a:" ++ toString idx, "title=" ++ names.getD idx "",
                 "-metadata:s:a:" ++ toString idx, "handler=" ++ names.getD idx "",
                 "-metadata:s:a:" ++ toString idx,
                 "handler_name=" ++ names.getD idx ""])).flatten) := by
      unfold build_channel_map
      rw [if_neg hguard]
      rfl
    simp only [hbuild, okList]
    have hch : ∀ i j : ℕ, j < 8 → i < N →
        (((["-filter_complex",
            String.intercalate ";" ((List.range N).map (fun idx =>
              "[a:0]pan=stereo| c0=c" ++ toString (idx * 2) ++ " | c1=c" ++
                toString (idx * 2 + 1) ++ "[a" ++ toString idx ++ "]"))] : List String)
          ++ ((List.range N).map (fun idx =>
                (["-map", "[a" ++ toString idx ++ "]",
                 "-metadata:s:a:" ++ toString idx, "title=" ++ names.getD idx "",
                 "-metadata:s:a:" ++ toString idx, "handler=" ++ names.getD idx "",
                 "-metadata:s:a:" ++ toString idx,
                 "handler_name=" ++ names.getD idx ""] : List String))).flatten) : List String).getD
            (2 + (8 * i + j)) "" =
          ((["-map", "[a" ++ toString i ++ "]",
             "-metadata:s:a:" ++ toString i, "title=" ++ names.getD i "",
             "-metadata:s:a:" ++ toString i, "handler=" ++ names.getD i "",
             "-metadata:s:a:" ++ toString i,
             "handler_name=" ++ names.getD i ""] : List String)).getD j "" := by
      intro i j hj hi
      rw [List.getD_append_right _ _ _ _ (by simp)]
      have e2 : 2 + (8 * i + j) - (["-filter_complex",
          String.intercalate ";" ((List.range N).map (fun idx =>
            "[a:0]pan=stereo| c0=c" ++ toString (idx * 2) ++ " | c1=c" ++
              toString (idx * 2 + 1) ++ "[a" ++ toString idx ++ "]"))] : List String).length
          = 8 * i + j := by simp
      rw [e2, flatten_blocks_getD _ 8 hblock N i j hi hj]
    refine ⟨rfl, ?_, rfl, by simp, fun i hi => ?_⟩
    · rw [List.length_append, flatten_blocks_length _ 8 hblock N]
      rfl
    · exact ⟨hch i 0 (by omega) hi, hch i 1 (by omega) hi, hch i 2 (by omega) hi,
        hch i 3 (by omega) hi, hch i 4 (by omega) hi, hch i 5 (by omega) hi,
        hch i 6 (by omega) hi, hch i 7 (by omega) hi⟩

/-- C6 witness: 2 stereo stems named mix and drums; the last metadata
assignment of stem 1 is its handler_name tag set to drums. -/
theorem C6_channel_map_witness :
    (build_channel_map 2 2 ["mix", "drums"]).isOk = true ∧
    (okList (build_channel_map 2 2 ["mix", "drums"])).getD (2 + (8 * 1 + 7)) "" =
      "handler_name=" ++ (["mix", "drums"].getD 1 "") :=
  ⟨(C6_channel_map 2 2 ["mix", "drums"] rfl (Or.inr rfl)).1,
   ((C6_channel_map 2 2 ["mix", "drums"] rfl (Or.inr rfl)).2.2.2.2 1
      (by omega)).2.2.2.2.2.2.2⟩

end Stempeg
